import Mathlib

/-!
Verification of `scripts/measure_and_send.py`.

The script is embedded shallowly: each sensor capability provider is a record
of `Except`-valued read operations (an `Except.error` models a raised Python
exception), the SQLite store is a `DB` value holding the optional
`measurements` table, and the module-level script body is `runScript`, which
returns the final exit outcome, the final database, the sequence of logging
calls made, and an ordered trace of the phases the interpreter executed.

Real numbers of the Python program are modelled as rationals (`ℚ`); the
concrete decimal readings of the spec are exact decimal fractions, so nothing
is lost.  Python `None` is `Option.none`.  `exit()` with no argument raises
`SystemExit(None)`, which terminates the interpreter with status 0; an
uncaught exception terminates it with status 1; `argparse` rejects an invalid
choice with status 2.
-/

namespace EnviroPlus

/-- Python exception values relevant to the script: the pms5003
`ReadTimeoutError`, and a catch-all for every other exception, carrying a
message. -/
inductive PyError where
  | readTimeout : PyError
  | err : String → PyError
deriving DecidableEq

/-- String rendering of an exception, used in the logged insert-error
message. -/
def PyError.describe : PyError → String
  | .readTimeout => "ReadTimeoutError"
  | .err m => m

/-- One record produced by a call to `logging.debug/info/warning/error`. -/
inductive LogEvent where
  | debug : String → LogEvent
  | info : String → LogEvent
  | warning : String → LogEvent
  | error : String → LogEvent
deriving DecidableEq

/-- The record returned by `gas.read_all()`. -/
structure GasReading where
  oxidising : ℚ
  reducing : ℚ
  nh3 : ℚ
deriving DecidableEq

/-- The BME280 handle: each getter may raise. -/
structure ClimateEnv where
  get_temperature : Except PyError ℚ
  get_pressure : Except PyError ℚ
  get_humidity : Except PyError ℚ

/-- The LTR559 handle: each getter may raise. -/
structure LightEnv where
  get_lux : Except PyError ℚ
  get_proximity : Except PyError ℚ

/-- The PMS5003 handle: `read()` may raise, and the returned frame's
`pm_ug_per_m3(size, atmospheric_environment)` may raise on each call.  The
`size` argument is `some q` for a literal size and `none` for Python `None`,
the provider's unbounded/maximum-size marker. -/
structure PMEnv where
  read : Except PyError Unit
  pm_ug_per_m3 : Option ℚ → Bool → Except PyError ℚ

/-- The gas provider: `read_all()` may raise. -/
structure GasEnv where
  read_all : Except PyError GasReading

/-- The six particulate entries of the `data` dict, each possibly not yet
assigned (`none` = key absent / value `None`). -/
structure PMAcc where
  pm1_0_standard : Option ℚ
  pm2_5_standard : Option ℚ
  pm10_standard : Option ℚ
  pm1_0_env : Option ℚ
  pm2_5_env : Option ℚ
  pm10_env : Option ℚ
deriving DecidableEq

/-- No particulate key assigned (also the all-`NULL` state written by the
timeout handler). -/
def PMAcc.empty : PMAcc := ⟨none, none, none, none, none, none⟩

/-- All six particulate concentrations, as obtained when the try block of
`get_sensor_data` completes. -/
structure PMFull where
  pm1_0_standard : ℚ
  pm2_5_standard : ℚ
  pm10_standard : ℚ
  pm1_0_env : ℚ
  pm2_5_env : ℚ
  pm10_env : ℚ
deriving DecidableEq

/-- The body of the `try` block at lines 92-100 of `get_sensor_data`:
`pms5003_sensor.read()` followed by the six `pm_ug_per_m3` calls, assigning
one dict key after each successful call.  On an exception it returns the dict
entries assigned so far together with the exception; note the argument
asymmetry of the two PM10 calls: `(10, False)` for the standard basis but
`(None, True)` for the environmental basis. -/
def pmTry (pms : PMEnv) : Except (PMAcc × PyError) PMFull :=
  match pms.read with
  | .error e => .error (PMAcc.empty, e)
  | .ok _ =>
    match pms.pm_ug_per_m3 (some 1) false with
    | .error e => .error (PMAcc.empty, e)
    | .ok v1 =>
      let s1 : PMAcc := { PMAcc.empty with pm1_0_standard := some v1 }
      match pms.pm_ug_per_m3 (some (Rat.mk' 5 2)) false with
      | .error e => .error (s1, e)
      | .ok v2 =>
        let s2 := { s1 with pm2_5_standard := some v2 }
        match pms.pm_ug_per_m3 (some 10) false with
        | .error e => .error (s2, e)
        | .ok v3 =>
          let s3 := { s2 with pm10_standard := some v3 }
          match pms.pm_ug_per_m3 (some 1) true with
          | .error e => .error (s3, e)
          | .ok v4 =>
            let s4 := { s3 with pm1_0_env := some v4 }
            match pms.pm_ug_per_m3 (some (Rat.mk' 5 2)) true with
            | .error e => .error (s4, e)
            | .ok v5 =>
              let s5 := { s4 with pm2_5_env := some v5 }
              match pms.pm_ug_per_m3 none true with
              | .error e => .error (s5, e)
              | .ok v6 => .ok ⟨v1, v2, v3, v4, v5, v6⟩

/-- The warning logged by the `except ReadTimeoutError` handler. -/
def pmsWarnMsg : String :=
  "PMS5003 sensor read timeout. Skipping particulate matter data."

/-- Lines 92-111 of the script: the `try/except ReadTimeoutError` around the
particulate reads.  On a timeout the handler logs a warning and overwrites
all six keys with `None` via `data.update`, whatever had been assigned so
far; any other exception propagates. -/
def pmHandled (pms : PMEnv) : Except PyError (PMAcc × List LogEvent) :=
  match pmTry pms with
  | .ok f =>
      .ok (⟨some f.pm1_0_standard, some f.pm2_5_standard, some f.pm10_standard,
            some f.pm1_0_env, some f.pm2_5_env, some f.pm10_env⟩, [])
  | .error (_, PyError.readTimeout) =>
      .ok (PMAcc.empty, [LogEvent.warning pmsWarnMsg])
  | .error (_, PyError.err m) => .error (PyError.err m)

/-- The `data` dict as returned by a successful `get_sensor_data` call: every
key is present; the six particulate values may be `None`. -/
structure SensorData where
  temperature : ℚ
  pressure : ℚ
  humidity : ℚ
  light_lux : ℚ
  light_proximity : ℚ
  pm1_0_standard : Option ℚ
  pm2_5_standard : Option ℚ
  pm10_standard : Option ℚ
  pm1_0_env : Option ℚ
  pm2_5_env : Option ℚ
  pm10_env : Option ℚ
  oxidising : ℚ
  reducing : ℚ
  nh3 : ℚ
deriving DecidableEq

/-- Lines 75-119: read the climate, light, particulate and gas providers in
program order.  Only the particulate block has a handler; every other raised
exception propagates out.  The second component collects the warnings logged
during the read. -/
def get_sensor_data (bme280 : ClimateEnv) (ltr559 : LightEnv) (pms : PMEnv)
    (gasLib : GasEnv) : Except PyError (SensorData × List LogEvent) :=
  match bme280.get_temperature with
  | .error e => .error e
  | .ok t =>
    match bme280.get_pressure with
    | .error e => .error e
    | .ok p =>
      match bme280.get_humidity with
      | .error e => .error e
      | .ok hum =>
        match ltr559.get_lux with
        | .error e => .error e
        | .ok lux =>
          match ltr559.get_proximity with
          | .error e => .error e
          | .ok prox =>
            match pmHandled pms with
            | .error e => .error e
            | .ok (pm, warns) =>
              match gasLib.read_all with
              | .error e => .error e
              | .ok g =>
                .ok ({ temperature := t, pressure := p, humidity := hum,
                       light_lux := lux, light_proximity := prox,
                       pm1_0_standard := pm.pm1_0_standard,
                       pm2_5_standard := pm.pm2_5_standard,
                       pm10_standard := pm.pm10_standard,
                       pm1_0_env := pm.pm1_0_env,
                       pm2_5_env := pm.pm2_5_env,
                       pm10_env := pm.pm10_env,
                       oxidising := g.oxidising, reducing := g.reducing,
                       nh3 := g.nh3 }, warns)

/-- One row of the `measurements` table, in the column order of the CREATE
TABLE statement.  Every column is nullable (the schema declares no NOT NULL
constraint); `none` is SQL `NULL`. -/
structure Row where
  timestamp : Option String
  temperature : Option ℚ
  pressure : Option ℚ
  humidity : Option ℚ
  light_lux : Option ℚ
  light_proximity : Option ℚ
  pm1_0_standard : Option ℚ
  pm2_5_standard : Option ℚ
  pm10_standard : Option ℚ
  pm1_0_env : Option ℚ
  pm2_5_env : Option ℚ
  pm10_env : Option ℚ
  oxidising : Option ℚ
  reducing : Option ℚ
  nh3 : Option ℚ
deriving DecidableEq

/-- The SQLite database file: `measurements` is `none` while the table does
not exist yet. -/
structure DB where
  measurements : Option (List Row)
deriving DecidableEq

/-- A fresh database file with no table. -/
def emptyDB : DB := ⟨none⟩

/-- Lines 48-73, `create_database_table`: CREATE TABLE IF NOT EXISTS.  The
`fail` argument injects an arbitrary persistence-layer exception (connect or
execute failing); the function has no handler, so such an exception
propagates.  Otherwise the table is created empty if absent and left exactly
as it is if present. -/
def create_database_table (fail : Option PyError) (db : DB) : Except PyError DB :=
  match fail with
  | some e => .error e
  | none => .ok ⟨some (db.measurements.getD [])⟩

/-- The positional `INSERT` tuple of `log_data`: dict values in the column
order of the table. -/
def rowOf (ts : String) (d : SensorData) : Row :=
  { timestamp := some ts, temperature := some d.temperature,
    pressure := some d.pressure, humidity := some d.humidity,
    light_lux := some d.light_lux, light_proximity := some d.light_proximity,
    pm1_0_standard := d.pm1_0_standard, pm2_5_standard := d.pm2_5_standard,
    pm10_standard := d.pm10_standard, pm1_0_env := d.pm1_0_env,
    pm2_5_env := d.pm2_5_env, pm10_env := d.pm10_env,
    oxidising := some d.oxidising, reducing := some d.reducing,
    nh3 := some d.nh3 }

/-- Lines 121-138, `log_data`: one INSERT inside `try/except Exception`.  The
`fail` argument injects a persistence-layer exception; inserting into a
missing table is itself an error.  Any exception is caught, logged with
`logging.error`, and swallowed; the connection is closed either way.  Returns
the resulting database and the logging calls made. -/
def log_data (fail : Option PyError) (ts : String) (d : SensorData) (db : DB) :
    DB × List LogEvent :=
  let attempt : Except PyError DB :=
    match fail with
    | some e => .error e
    | none =>
      match db.measurements with
      | none => .error (.err "no such table: measurements")
      | some rows => .ok ⟨some (rows ++ [rowOf ts d])⟩
  match attempt with
  | .ok db2 => (db2, [])
  | .error e => (db, [LogEvent.error ("Error logging data: " ++ e.describe)])

/-- The phases of the interpreter's execution of the script, in the order
they are entered. -/
inductive Event where
  | importGas : Event
  | importBME280 : Event
  | importLTR559 : Event
  | importPMS5003 : Event
  | sensorHandleInit : Event
  | argparse : Event
  | schemaEnsure : Event
  | sensorRead : Event
  | dbInsert : Event
deriving DecidableEq

/-- How the interpreter terminated: `status n` is a `SystemExit`/normal exit
with that status, `uncaught e` is an uncaught exception (traceback printed,
interpreter status 1). -/
inductive Exit where
  | status : Nat → Exit
  | uncaught : PyError → Exit
deriving DecidableEq

/-- The numeric process exit status. -/
def Exit.code : Exit → Nat
  | .status n => n
  | .uncaught _ => 1

/-- Everything observable about one invocation of the script. -/
structure ScriptResult where
  exit : Exit
  db : DB
  logs : List LogEvent
  trace : List Event
deriving DecidableEq

/-- The whole environment one invocation runs in: which imports succeed,
whether each module-level sensor constructor raises, the parsed command-line
values, the behaviour of the four sensor handles, the injected
persistence-layer faults, and the clock reading. -/
structure Env where
  import_gas_ok : Bool
  import_bme280_ok : Bool
  import_ltr559_ok : Bool
  import_pms5003_ok : Bool
  bme280_init : Option PyError
  ltr559_init : Option PyError
  pms5003_init : Option PyError
  db_file : String
  log_level : String
  bme280 : ClimateEnv
  ltr559 : LightEnv
  pms5003_sensor : PMEnv
  gas : GasEnv
  schema_fail : Option PyError
  insert_fail : Option PyError
  timestamp : String

/-- The keys of the `LOG_LEVELS` dict, the valid `--log-level` choices. -/
def LOG_LEVELS : List String := ["debug", "info", "warning", "error", "critical"]

def importGasMsg : String :=
  "The enviroplus-python library is not installed. Please install it by running: pip3 install enviroplus-python"

def importBME280Msg : String :=
  "The bme280 library is not installed. Please install it by running: pip3 install enviroplus-python[bme280]"

def importLTR559Msg : String :=
  "The ltr559 library is not installed. Please install it by running: pip3 install enviroplus-python[ltr559]"

def importPMS5003Msg : String :=
  "The pms5003 library is not installed. Please install it by running: pip3 install pms5003"

def startingMsg (dbFile : String) : String :=
  "Starting Enviro+ data logger. Data will be saved to " ++ dbFile ++ "."

def readingMsg (ts : String) : String :=
  "Reading sensor data for timestamp: " ++ ts

def successMsg : String := "Data logged successfully. Exiting."

/-- The import and module-level initialization phases all executed. -/
def startupTrace : List Event :=
  [.importGas, .importBME280, .importLTR559, .importPMS5003, .sensorHandleInit]

/-- Lines 141-175, the `if __name__ == "__main__"` body, entered after a
successful startup and argument parse: log the start message, ensure the
schema (uncaught on failure), take the timestamp, read the sensors (uncaught
on failure), append the row (errors swallowed), log the final message. -/
def mainBody (env : Env) (db0 : DB) (tr : List Event) : ScriptResult :=
  let logs0 : List LogEvent := [.info (startingMsg env.db_file)]
  match create_database_table env.schema_fail db0 with
  | .error e =>
      { exit := .uncaught e, db := db0, logs := logs0,
        trace := tr ++ [.schemaEnsure] }
  | .ok db1 =>
      let logs1 := logs0 ++ [.info (readingMsg env.timestamp)]
      match get_sensor_data env.bme280 env.ltr559 env.pms5003_sensor env.gas with
      | .error e =>
          { exit := .uncaught e, db := db1, logs := logs1,
            trace := tr ++ [.schemaEnsure, .sensorRead] }
      | .ok (sd, warns) =>
          let res := log_data env.insert_fail env.timestamp sd db1
          { exit := .status 0, db := res.1,
            logs := logs1 ++ warns ++ [.debug "Sensor data read"] ++ res.2
                      ++ [.info successMsg],
            trace := tr ++ [.schemaEnsure, .sensorRead, .dbInsert] }

/-- The whole script, from the first import to interpreter exit.  A
failing import logs an error and calls `exit()` (`SystemExit(None)`, process
status 0); a raising module-level constructor is an uncaught exception;
`argparse` rejects an invalid `--log-level` with status 2 after the handles
were already constructed; then the main body runs. -/
def runScript (env : Env) (db0 : DB) : ScriptResult :=
  if env.import_gas_ok = false then
    { exit := .status 0, db := db0, logs := [.error importGasMsg],
      trace := [.importGas] }
  else if env.import_bme280_ok = false then
    { exit := .status 0, db := db0, logs := [.error importBME280Msg],
      trace := [.importGas, .importBME280] }
  else if env.import_ltr559_ok = false then
    { exit := .status 0, db := db0, logs := [.error importLTR559Msg],
      trace := [.importGas, .importBME280, .importLTR559] }
  else if env.import_pms5003_ok = false then
    { exit := .status 0, db := db0, logs := [.error importPMS5003Msg],
      trace := [.importGas, .importBME280, .importLTR559, .importPMS5003] }
  else
    match env.bme280_init with
    | some e => { exit := .uncaught e, db := db0, logs := [], trace := startupTrace }
    | none =>
      match env.ltr559_init with
      | some e => { exit := .uncaught e, db := db0, logs := [], trace := startupTrace }
      | none =>
        match env.pms5003_init with
        | some e => { exit := .uncaught e, db := db0, logs := [], trace := startupTrace }
        | none =>
          if env.log_level ∈ LOG_LEVELS then
            mainBody env db0 (startupTrace ++ [.argparse])
          else
            { exit := .status 2, db := db0, logs := [],
              trace := startupTrace ++ [.argparse] }

/-! ### Concrete scenario inputs

The decimal readings of the spec, written as exact rationals in raw
normalized form (`Rat.mk' 43 2` is 21.5, `Rat.mk' 5066 5` is 1013.2, and so
on), so that evaluation stays kernel-reducible. -/

/-- Climate provider returning (21.5, 1013.2, 45.0). -/
def climate3 : ClimateEnv :=
  ⟨Except.ok (Rat.mk' 43 2), Except.ok (Rat.mk' 5066 5), Except.ok 45⟩

/-- Light provider returning (120.0, 0.0). -/
def light3 : LightEnv := ⟨Except.ok 120, Except.ok 0⟩

/-- Gas provider returning (0.8, 0.4, 0.01). -/
def gasOk3 : GasEnv := ⟨Except.ok ⟨Rat.mk' 4 5, Rat.mk' 2 5, Rat.mk' 1 100⟩⟩

/-- Particulate provider whose `read()` raises `ReadTimeoutError`. -/
def pmsTimeout : PMEnv :=
  ⟨Except.error PyError.readTimeout, fun _ _ => Except.error PyError.readTimeout⟩

def tsC3 : String := "2026-10-12T00:00:00"

/-- The healthy-startup environment of the spec's first concrete test: all
module imports and constructors succeed, default CLI values, climate/light/gas
as above, particulate read timing out, no persistence faults. -/
def envC3 : Env :=
  { import_gas_ok := true, import_bme280_ok := true, import_ltr559_ok := true,
    import_pms5003_ok := true,
    bme280_init := none, ltr559_init := none, pms5003_init := none,
    db_file := "enviroplus_data.db", log_level := "info",
    bme280 := climate3, ltr559 := light3, pms5003_sensor := pmsTimeout,
    gas := gasOk3,
    schema_fail := none, insert_fail := none, timestamp := tsC3 }

/-- The row that scenario must append. -/
def rowC3 : Row :=
  { timestamp := some tsC3, temperature := some (Rat.mk' 43 2),
    pressure := some (Rat.mk' 5066 5),
    humidity := some 45, light_lux := some 120, light_proximity := some 0,
    pm1_0_standard := none, pm2_5_standard := none, pm10_standard := none,
    pm1_0_env := none, pm2_5_env := none, pm10_env := none,
    oxidising := some (Rat.mk' 4 5), reducing := some (Rat.mk' 2 5),
    nh3 := some (Rat.mk' 1 100) }

/-- The dict that scenario's `get_sensor_data` returns. -/
def sdC3 : SensorData :=
  { temperature := Rat.mk' 43 2, pressure := Rat.mk' 5066 5, humidity := 45,
    light_lux := 120, light_proximity := 0,
    pm1_0_standard := none, pm2_5_standard := none, pm10_standard := none,
    pm1_0_env := none, pm2_5_env := none, pm10_env := none,
    oxidising := Rat.mk' 4 5, reducing := Rat.mk' 2 5, nh3 := Rat.mk' 1 100 }

/-- Particulate provider returning the spec's concentrations: standard basis
1.0 ↦ 10.2, 2.5 ↦ 15.7, 10 ↦ 20.1; environmental basis 1.0 ↦ 9.8,
2.5 ↦ 14.9, max-bin (`None`) ↦ 19.5; any other request is an error. -/
def pmsC4 : PMEnv :=
  { read := Except.ok ()
    pm_ug_per_m3 := fun size env =>
      match env, size with
      | false, some q =>
          if q = 1 then .ok (Rat.mk' 51 5)
          else if q = Rat.mk' 5 2 then .ok (Rat.mk' 157 10)
          else if q = 10 then .ok (Rat.mk' 201 10)
          else .error (.err "unexpected size")
      | true, some q =>
          if q = 1 then .ok (Rat.mk' 49 5)
          else if q = Rat.mk' 5 2 then .ok (Rat.mk' 149 10)
          else .error (.err "unexpected size")
      | true, none => .ok (Rat.mk' 39 2)
      | false, none => .error (.err "unexpected size") }

/-- Same run as `envC3` but with the particulate provider answering. -/
def envC4 : Env := { envC3 with pms5003_sensor := pmsC4 }

/-- The row the `envC4` run must append: note pm10_env = 19.5, the max-bin
aggregate, not 20.1. -/
def rowC4 : Row :=
  { timestamp := some tsC3, temperature := some (Rat.mk' 43 2),
    pressure := some (Rat.mk' 5066 5),
    humidity := some 45, light_lux := some 120, light_proximity := some 0,
    pm1_0_standard := some (Rat.mk' 51 5), pm2_5_standard := some (Rat.mk' 157 10),
    pm10_standard := some (Rat.mk' 201 10),
    pm1_0_env := some (Rat.mk' 49 5), pm2_5_env := some (Rat.mk' 149 10),
    pm10_env := some (Rat.mk' 39 2),
    oxidising := some (Rat.mk' 4 5), reducing := some (Rat.mk' 2 5),
    nh3 := some (Rat.mk' 1 100) }

/-- A run whose single INSERT fails (for instance a locked database file). -/
def envC2 : Env := { envC3 with insert_fail := some (PyError.err "database is locked") }

/-- A run on a machine where the enviroplus library cannot be imported. -/
def envC5 : Env := { envC3 with import_gas_ok := false }

/-- A run on a machine where the libraries import but the module-level
`BME280()` constructor raises. -/
def envC5init : Env :=
  { envC3 with bme280_init := some (PyError.err "sensor not connected") }

/-- A run invoked with an invalid log level argument. -/
def envC6 : Env := { envC3 with log_level := "verbose" }

/-- A run whose schema-ensure step hits a persistence-layer failure. -/
def envC9 : Env := { envC3 with schema_fail := some (PyError.err "disk failure") }

/-- Particulate provider whose frame answers the three standard-basis
requests (with 7, 8, 9) and then raises `ReadTimeoutError` on the fourth
retrieval: a timeout in the middle of the six retrievals, after three dict
keys were already assigned. -/
def pmsC10 : PMEnv :=
  { read := Except.ok ()
    pm_ug_per_m3 := fun size env =>
      if env then .error PyError.readTimeout
      else match size with
      | some q => if q = 1 then .ok 7 else if q = Rat.mk' 5 2 then .ok 8 else .ok 9
      | none => .error PyError.readTimeout }

/-- The all-or-nothing shape of the particulate columns of a row. -/
def Row.pmConsistent (r : Row) : Prop :=
  (r.pm1_0_standard ≠ none ∧ r.pm2_5_standard ≠ none ∧ r.pm10_standard ≠ none ∧
   r.pm1_0_env ≠ none ∧ r.pm2_5_env ≠ none ∧ r.pm10_env ≠ none) ∨
  (r.pm1_0_standard = none ∧ r.pm2_5_standard = none ∧ r.pm10_standard = none ∧
   r.pm1_0_env = none ∧ r.pm2_5_env = none ∧ r.pm10_env = none)

/-! ### Helper lemmas -/

/-- The raw rationals used in the concrete scenarios denote exactly the
spec's decimal readings. -/
theorem rat_literal_values :
    (Rat.mk' 43 2 : ℚ) = 43/2 ∧ (Rat.mk' 5066 5 : ℚ) = 5066/5 ∧
    (Rat.mk' 4 5 : ℚ) = 4/5 ∧ (Rat.mk' 2 5 : ℚ) = 2/5 ∧
    (Rat.mk' 1 100 : ℚ) = 1/100 ∧ (Rat.mk' 5 2 : ℚ) = 5/2 ∧
    (Rat.mk' 51 5 : ℚ) = 51/5 ∧ (Rat.mk' 157 10 : ℚ) = 157/10 ∧
    (Rat.mk' 201 10 : ℚ) = 201/10 ∧ (Rat.mk' 49 5 : ℚ) = 49/5 ∧
    (Rat.mk' 149 10 : ℚ) = 149/10 ∧ (Rat.mk' 39 2 : ℚ) = 39/2 := by
  refine ⟨?_, ?_, ?_, ?_, ?_, ?_, ?_, ?_, ?_, ?_, ?_, ?_⟩ <;>
    (rw [Rat.mk'_eq_divInt]; norm_num [Rat.divInt_eq_div])

/-- A successful schema-ensure returns the ensured table: created empty if it
was absent, kept as-is if present. -/
theorem create_database_table_ok (fail : Option PyError) (db db1 : DB)
    (h : create_database_table fail db = Except.ok db1) :
    db1 = DB.mk (some (db.measurements.getD [])) := by
  cases fail with
  | none =>
      simp only [create_database_table, Except.ok.injEq] at h
      exact h.symm
  | some e => simp [create_database_table] at h

/-- `log_data` on an existing table either appends exactly the one row (on
success) or leaves the table untouched (on a swallowed error). -/
theorem log_data_cases (fail : Option PyError) (ts : String) (d : SensorData)
    (rows : List Row) :
    (log_data fail ts d ⟨some rows⟩).1 = DB.mk (some (rows ++ [rowOf ts d])) ∨
    (log_data fail ts d ⟨some rows⟩).1 = DB.mk (some rows) := by
  cases fail with
  | none => exact Or.inl rfl
  | some e => exact Or.inr rfl

/-- Whenever the particulate block completes without propagating an
exception, the six dict entries are all assigned real values or all `None`. -/
theorem pmHandled_shape (pms : PMEnv) (pm : PMAcc) (warns : List LogEvent)
    (h : pmHandled pms = Except.ok (pm, warns)) :
    (pm.pm1_0_standard ≠ none ∧ pm.pm2_5_standard ≠ none ∧
     pm.pm10_standard ≠ none ∧ pm.pm1_0_env ≠ none ∧
     pm.pm2_5_env ≠ none ∧ pm.pm10_env ≠ none) ∨
    (pm.pm1_0_standard = none ∧ pm.pm2_5_standard = none ∧
     pm.pm10_standard = none ∧ pm.pm1_0_env = none ∧
     pm.pm2_5_env = none ∧ pm.pm10_env = none) := by
  cases hpt : pmTry pms with
  | ok f =>
      simp only [pmHandled, hpt, Except.ok.injEq, Prod.mk.injEq] at h
      obtain ⟨h1, -⟩ := h
      subst h1
      left
      simp
  | error se =>
      obtain ⟨s, e⟩ := se
      cases e with
      | readTimeout =>
          simp only [pmHandled, hpt, Except.ok.injEq, Prod.mk.injEq] at h
          obtain ⟨h1, -⟩ := h
          subst h1
          right
          simp [PMAcc.empty]
      | err m => simp [pmHandled, hpt] at h

/-- The particulate block completes without propagating exactly when the six
retrievals all succeed or the raised exception is precisely the read
timeout. -/
theorem pmHandled_ok_iff (pms : PMEnv) :
    (∃ pw, pmHandled pms = Except.ok pw) ↔
    ((∃ f, pmTry pms = Except.ok f) ∨
     (∃ s, pmTry pms = Except.error (s, PyError.readTimeout))) := by
  cases hpt : pmTry pms with
  | ok f => simp [pmHandled, hpt]
  | error se =>
      obtain ⟨s, e⟩ := se
      cases e with
      | readTimeout => simp [pmHandled, hpt]
      | err m => simp [pmHandled, hpt]

/-- Inversion of a completed sensor read: every provider call before and
after the particulate block succeeded, and the six particulate entries of
the returned dict are those produced by the handled particulate block. -/
theorem get_sensor_data_ok_inv (bme280 : ClimateEnv) (ltr559 : LightEnv)
    (pms : PMEnv) (gasLib : GasEnv) (sd : SensorData) (warns : List LogEvent)
    (h : get_sensor_data bme280 ltr559 pms gasLib = Except.ok (sd, warns)) :
    (∃ q, bme280.get_temperature = Except.ok q) ∧
    (∃ q, bme280.get_pressure = Except.ok q) ∧
    (∃ q, bme280.get_humidity = Except.ok q) ∧
    (∃ q, ltr559.get_lux = Except.ok q) ∧
    (∃ q, ltr559.get_proximity = Except.ok q) ∧
    (∃ g, gasLib.read_all = Except.ok g) ∧
    ∃ pm, pmHandled pms = Except.ok (pm, warns) ∧
      sd.pm1_0_standard = pm.pm1_0_standard ∧
      sd.pm2_5_standard = pm.pm2_5_standard ∧
      sd.pm10_standard = pm.pm10_standard ∧
      sd.pm1_0_env = pm.pm1_0_env ∧
      sd.pm2_5_env = pm.pm2_5_env ∧
      sd.pm10_env = pm.pm10_env := by
  have e0 : ∃ q, bme280.get_temperature = Except.ok q := by
    cases h0 : bme280.get_temperature with
    | error e => simp [get_sensor_data, h0] at h
    | ok t => exact ⟨t, rfl⟩
  obtain ⟨t, h0⟩ := e0
  have e1 : ∃ q, bme280.get_pressure = Except.ok q := by
    cases h1 : bme280.get_pressure with
    | error e => simp [get_sensor_data, h0, h1] at h
    | ok p => exact ⟨p, rfl⟩
  obtain ⟨p, h1⟩ := e1
  have e2 : ∃ q, bme280.get_humidity = Except.ok q := by
    cases h2 : bme280.get_humidity with
    | error e => simp [get_sensor_data, h0, h1, h2] at h
    | ok hu => exact ⟨hu, rfl⟩
  obtain ⟨hu, h2⟩ := e2
  have e3 : ∃ q, ltr559.get_lux = Except.ok q := by
    cases h3 : ltr559.get_lux with
    | error e => simp [get_sensor_data, h0, h1, h2, h3] at h
    | ok lx => exact ⟨lx, rfl⟩
  obtain ⟨lx, h3⟩ := e3
  have e4 : ∃ q, ltr559.get_proximity = Except.ok q := by
    cases h4 : ltr559.get_proximity with
    | error e => simp [get_sensor_data, h0, h1, h2, h3, h4] at h
    | ok px => exact ⟨px, rfl⟩
  obtain ⟨px, h4⟩ := e4
  have e5 : ∃ pw, pmHandled pms = Except.ok pw := by
    cases h5 : pmHandled pms with
    | error e => simp [get_sensor_data, h0, h1, h2, h3, h4, h5] at h
    | ok pw => exact ⟨pw, rfl⟩
  obtain ⟨⟨pm, w1⟩, h5⟩ := e5
  have e6 : ∃ g, gasLib.read_all = Except.ok g := by
    cases h6 : gasLib.read_all with
    | error e => simp [get_sensor_data, h0, h1, h2, h3, h4, h5, h6] at h
    | ok g => exact ⟨g, rfl⟩
  obtain ⟨g, h6⟩ := e6
  simp only [get_sensor_data, h0, h1, h2, h3, h4, h5, h6, Except.ok.injEq,
    Prod.mk.injEq] at h
  obtain ⟨hsd, hw⟩ := h
  subst hsd
  subst hw
  exact ⟨⟨t, h0⟩, ⟨p, h1⟩, ⟨hu, h2⟩, ⟨lx, h3⟩, ⟨px, h4⟩, ⟨g, h6⟩,
    pm, h5, rfl, rfl, rfl, rfl, rfl, rfl⟩

/-- Whatever the environment, one run changes the database in one of exactly
three ways: not at all, by creating the (empty) table, or by additionally
appending the single row built from a completed sensor read. -/
theorem runScript_db_cases (env : Env) (db0 : DB) :
    (runScript env db0).db = db0 ∨
    (runScript env db0).db = DB.mk (some (db0.measurements.getD [])) ∨
    ∃ sd warns,
      get_sensor_data env.bme280 env.ltr559 env.pms5003_sensor env.gas =
        Except.ok (sd, warns) ∧
      (runScript env db0).db =
        DB.mk (some (db0.measurements.getD [] ++ [rowOf env.timestamp sd])) := by
  unfold runScript
  split
  · exact Or.inl rfl
  · split
    · exact Or.inl rfl
    · split
      · exact Or.inl rfl
      · split
        · exact Or.inl rfl
        · split
          · exact Or.inl rfl
          · split
            · exact Or.inl rfl
            · split
              · exact Or.inl rfl
              · split
                · unfold mainBody
                  split
                  · exact Or.inl rfl
                  · rename_i db1 hdb1
                    have hdb1e := create_database_table_ok _ _ _ hdb1
                    subst hdb1e
                    split
                    · exact Or.inr (Or.inl rfl)
                    · rename_i sd warns hsd
                      rcases log_data_cases env.insert_fail env.timestamp sd
                          (db0.measurements.getD []) with hld | hld
                      · exact Or.inr (Or.inr ⟨sd, warns, hsd, hld⟩)
                      · exact Or.inr (Or.inl hld)
                · exact Or.inl rfl

/-! ### Claims -/

/-- C1: In every persisted row, the six particulate fields are either all six
present or all six absent; no run produces a row with a partial mix.  Any
row a run adds on top of the pre-existing table contents is particulate
all-or-nothing (and carries a non-null timestamp). -/
theorem C1_pm_all_or_nothing (env : Env) (db0 : DB) :
    (runScript env db0).db = db0 ∨
    (runScript env db0).db = DB.mk (some (db0.measurements.getD [])) ∨
    ∃ r : Row, (runScript env db0).db =
        DB.mk (some (db0.measurements.getD [] ++ [r])) ∧
      Row.pmConsistent r ∧ r.timestamp ≠ none := by
  rcases runScript_db_cases env db0 with h | h | ⟨sd, warns, hsd, h⟩
  · exact Or.inl h
  · exact Or.inr (Or.inl h)
  · refine Or.inr (Or.inr ⟨rowOf env.timestamp sd, h, ?_, ?_⟩)
    · obtain ⟨-, -, -, -, -, -, pm, hpm, q1, q2, q3, q4, q5, q6⟩ :=
        get_sensor_data_ok_inv _ _ _ _ _ _ hsd
      rcases pmHandled_shape _ _ _ hpm with hs | hs
      · exact Or.inl (by
          simp only [Row.pmConsistent, rowOf, q1, q2, q3, q4, q5, q6]
          exact hs)
      · exact Or.inr (by
          simp only [Row.pmConsistent, rowOf, q1, q2, q3, q4, q5, q6]
          exact hs)
    · simp [rowOf]

/-- C3: With climate (21.5, 1013.2, 45.0), light (120.0, 0.0), gas
(0.8, 0.4, 0.01) and the particulate read raising a timeout, the run appends
exactly one row carrying those values with all six pm columns NULL and a
non-null timestamp, a warning is logged for the timeout, and the run exits
with status 0. -/
theorem C3_timeout_scenario :
    (runScript envC3 emptyDB).db.measurements = some [rowC3] ∧
    rowC3.timestamp = some tsC3 ∧
    rowC3.pm1_0_standard = none ∧ rowC3.pm2_5_standard = none ∧
    rowC3.pm10_standard = none ∧ rowC3.pm1_0_env = none ∧
    rowC3.pm2_5_env = none ∧ rowC3.pm10_env = none ∧
    LogEvent.warning pmsWarnMsg ∈ (runScript envC3 emptyDB).logs ∧
    (runScript envC3 emptyDB).exit = Exit.status 0 :=
  ⟨by decide, rfl, rfl, rfl, rfl, rfl, rfl, rfl, by decide, by decide⟩

/-- C4: Whenever the particulate try block completes, its environmental PM10
entry came from the call with the unbounded/maximum-size marker (Python
`None`) while its standard PM10 entry came from the call with the literal
size 10; in the spec's concrete instance the appended row's pm10_env is 19.5
(the max-bin aggregate), not the value tied to literal size 10. -/
theorem C4_pm10_env_from_max_bin (pms : PMEnv) (f : PMFull)
    (h : pmTry pms = Except.ok f) :
    pms.pm_ug_per_m3 none true = Except.ok f.pm10_env ∧
    pms.pm_ug_per_m3 (some 10) false = Except.ok f.pm10_standard ∧
    (runScript envC4 emptyDB).db.measurements = some [rowC4] ∧
    rowC4.pm10_env = some (Rat.mk' 39 2) := by
  have hconc : (runScript envC4 emptyDB).db.measurements = some [rowC4] := by decide
  cases h0 : pms.read with
  | error e => simp [pmTry, h0] at h
  | ok u =>
  cases h1 : pms.pm_ug_per_m3 (some 1) false with
  | error e => simp [pmTry, h0, h1] at h
  | ok v1 =>
  cases h2 : pms.pm_ug_per_m3 (some (Rat.mk' 5 2)) false with
  | error e => simp [pmTry, h0, h1, h2] at h
  | ok v2 =>
  cases h3 : pms.pm_ug_per_m3 (some 10) false with
  | error e => simp [pmTry, h0, h1, h2, h3] at h
  | ok v3 =>
  cases h4 : pms.pm_ug_per_m3 (some 1) true with
  | error e => simp [pmTry, h0, h1, h2, h3, h4] at h
  | ok v4 =>
  cases h5 : pms.pm_ug_per_m3 (some (Rat.mk' 5 2)) true with
  | error e => simp [pmTry, h0, h1, h2, h3, h4, h5] at h
  | ok v5 =>
  cases h6 : pms.pm_ug_per_m3 none true with
  | error e => simp [pmTry, h0, h1, h2, h3, h4, h5, h6] at h
  | ok v6 =>
  simp only [pmTry, h0, h1, h2, h3, h4, h5, h6, Except.ok.injEq] at h
  subst h
  exact ⟨rfl, rfl, hconc, rfl⟩

/-- C4 witness: the spec's concrete particulate provider, on which the try
block completes with pm10_env = 19.5 from the max-bin request. -/
theorem C4_pm10_env_from_max_bin_witness :
    pmsC4.pm_ug_per_m3 none true = Except.ok (Rat.mk' 39 2) ∧
    pmsC4.pm_ug_per_m3 (some 10) false = Except.ok (Rat.mk' 201 10) ∧
    (runScript envC4 emptyDB).db.measurements = some [rowC4] ∧
    rowC4.pm10_env = some (Rat.mk' 39 2) :=
  C4_pm10_env_from_max_bin pmsC4
    ⟨Rat.mk' 51 5, Rat.mk' 157 10, Rat.mk' 201 10, Rat.mk' 49 5,
     Rat.mk' 149 10, Rat.mk' 39 2⟩ rfl

/-- C7: The schema-ensure operation is idempotent: on any database state and
a healthy persistence layer it succeeds (never raising), producing the table
unchanged when present (created empty when absent), and running it again on
its own output returns that output unchanged. -/
theorem C7_schema_ensure_idempotent (db : DB) :
    create_database_table none db =
      Except.ok (DB.mk (some (db.measurements.getD []))) ∧
    create_database_table none (DB.mk (some (db.measurements.getD []))) =
      Except.ok (DB.mk (some (db.measurements.getD []))) := by
  constructor
  · rfl
  · simp [create_database_table]

/-- C10: If the read timeout is raised at any point inside the try block —
by the initial read or by any of the six concentration retrievals — then
whatever particulate dict entries were already assigned (`s`), the handler
overwrites them all: the block completes with all six entries absent and the
timeout warning logged. -/
theorem C10_midway_timeout_all_absent (pms : PMEnv) (s : PMAcc)
    (h : pmTry pms = Except.error (s, PyError.readTimeout)) :
    pmHandled pms = Except.ok (PMAcc.empty, [LogEvent.warning pmsWarnMsg]) := by
  unfold pmHandled
  rw [h]

/-- C10 witness: a provider that answers the three standard-basis retrievals
(7, 8, 9 were already assigned in the dict) and raises the timeout on the
fourth retrieval; the handled block still produces all six entries absent. -/
theorem C10_midway_timeout_all_absent_witness :
    pmTry pmsC10 = Except.error
      (⟨some 7, some 8, some 9, none, none, none⟩, PyError.readTimeout) ∧
    pmHandled pmsC10 =
      Except.ok (PMAcc.empty, [LogEvent.warning pmsWarnMsg]) :=
  ⟨rfl, C10_midway_timeout_all_absent pmsC10
    ⟨some 7, some 8, some 9, none, none, none⟩ rfl⟩

/-- C2: A persistence error raised during the single INSERT is logged and
swallowed: the run still exits with status 0, the final success log line is
still emitted, the database is left exactly as the schema-ensure left it
(no partial write, no rollback), and the insert was attempted exactly once
(no retry). -/
theorem C2_insert_error_swallowed (env : Env) (db0 : DB) (e : PyError)
    (sd : SensorData) (warns : List LogEvent)
    (h1 : env.import_gas_ok = true) (h2 : env.import_bme280_ok = true)
    (h3 : env.import_ltr559_ok = true) (h4 : env.import_pms5003_ok = true)
    (h5 : env.bme280_init = none) (h6 : env.ltr559_init = none)
    (h7 : env.pms5003_init = none) (h8 : env.log_level ∈ LOG_LEVELS)
    (h9 : env.schema_fail = none)
    (h10 : get_sensor_data env.bme280 env.ltr559 env.pms5003_sensor env.gas =
      Except.ok (sd, warns))
    (h11 : env.insert_fail = some e) :
    (runScript env db0).exit = Exit.status 0 ∧
    LogEvent.error ("Error logging data: " ++ e.describe) ∈
      (runScript env db0).logs ∧
    (runScript env db0).logs.getLast? = some (LogEvent.info successMsg) ∧
    (runScript env db0).db = DB.mk (some (db0.measurements.getD [])) ∧
    (runScript env db0).trace.count Event.dbInsert = 1 := by
  have hrun : runScript env db0 =
      { exit := .status 0,
        db := DB.mk (some (db0.measurements.getD [])),
        logs := [.info (startingMsg env.db_file), .info (readingMsg env.timestamp)]
          ++ warns ++ [.debug "Sensor data read"]
          ++ [.error ("Error logging data: " ++ e.describe)]
          ++ [.info successMsg],
        trace := startupTrace ++ [.argparse]
          ++ [.schemaEnsure, .sensorRead, .dbInsert] } := by
    simp [runScript, mainBody, h1, h2, h3, h4, h5, h6, h7, h8, h9, h10, h11,
      create_database_table, log_data]
  rw [hrun]
  refine ⟨rfl, by simp, List.getLast?_concat _, rfl, ?_⟩
  show (startupTrace ++ [Event.argparse] ++
    [Event.schemaEnsure, Event.sensorRead, Event.dbInsert]).count Event.dbInsert = 1
  decide

/-- C2 witness: the concrete healthy run whose INSERT hits a locked
database. -/
theorem C2_insert_error_swallowed_witness :
    (runScript envC2 emptyDB).exit = Exit.status 0 ∧
    LogEvent.error ("Error logging data: " ++
        (PyError.err "database is locked").describe) ∈
      (runScript envC2 emptyDB).logs ∧
    (runScript envC2 emptyDB).logs.getLast? = some (LogEvent.info successMsg) ∧
    (runScript envC2 emptyDB).db = DB.mk (some []) ∧
    (runScript envC2 emptyDB).trace.count Event.dbInsert = 1 :=
  C2_insert_error_swallowed envC2 emptyDB (PyError.err "database is locked")
    sdC3 [LogEvent.warning pmsWarnMsg]
    rfl rfl rfl rfl rfl rfl rfl (by decide) rfl rfl rfl

/-- C5 counterexample: when the first provider library cannot be imported,
the script logs an error and terminates before any measurement — but via
`exit()` with no argument, so the process exit status is 0, not non-zero as
the claim states. -/
theorem C5_counterexample :
    (runScript envC5 emptyDB).exit = Exit.status 0 ∧
    Exit.code (runScript envC5 emptyDB).exit = 0 ∧
    LogEvent.error importGasMsg ∈ (runScript envC5 emptyDB).logs ∧
    Event.sensorRead ∉ (runScript envC5 emptyDB).trace :=
  ⟨by decide, by decide, by decide, by decide⟩

/-- C5 amended, keeping the original exit-behavior contract whole and
changing only what the counterexample forces: (1) if any of the four
provider libraries cannot be imported at startup, the program logs an error
message and terminates early with exit status 0 (Python `exit()` with no
argument — not a non-zero status), before any measurement or insert; (2) if
the libraries import but a sensor handle constructor raises at module-level
initialization, the program terminates early with a non-zero status (the
uncaught exception), before any measurement or insert; (3) otherwise —
given a valid log level and no escaping schema-ensure or sensor-read
exception — it runs to completion and exits 0 after one final log line
confirming persistence. -/
theorem C5_amended_exit_behavior (env : Env) (db0 : DB) :
    ((env.import_gas_ok = false ∨ env.import_bme280_ok = false ∨
      env.import_ltr559_ok = false ∨ env.import_pms5003_ok = false) →
     (runScript env db0).exit = Exit.status 0 ∧
     (∃ m, LogEvent.error m ∈ (runScript env db0).logs) ∧
     Event.sensorRead ∉ (runScript env db0).trace ∧
     Event.dbInsert ∉ (runScript env db0).trace) ∧
    ((env.import_gas_ok = true ∧ env.import_bme280_ok = true ∧
      env.import_ltr559_ok = true ∧ env.import_pms5003_ok = true ∧
      ¬(env.bme280_init = none ∧ env.ltr559_init = none ∧
        env.pms5003_init = none)) →
     (∃ e, (runScript env db0).exit = Exit.uncaught e) ∧
     Exit.code (runScript env db0).exit ≠ 0 ∧
     Event.sensorRead ∉ (runScript env db0).trace ∧
     Event.dbInsert ∉ (runScript env db0).trace) ∧
    ((env.import_gas_ok = true ∧ env.import_bme280_ok = true ∧
      env.import_ltr559_ok = true ∧ env.import_pms5003_ok = true ∧
      env.bme280_init = none ∧ env.ltr559_init = none ∧
      env.pms5003_init = none ∧ env.log_level ∈ LOG_LEVELS ∧
      env.schema_fail = none ∧
      (∃ res, get_sensor_data env.bme280 env.ltr559 env.pms5003_sensor
        env.gas = Except.ok res)) →
     (runScript env db0).exit = Exit.status 0 ∧
     (runScript env db0).logs.getLast? = some (LogEvent.info successMsg) ∧
     Event.dbInsert ∈ (runScript env db0).trace) := by
  refine ⟨?_, ?_, ?_⟩
  · intro h
    cases hg : env.import_gas_ok <;> cases hb : env.import_bme280_ok <;>
      cases hl : env.import_ltr559_ok <;> cases hp : env.import_pms5003_ok <;>
      simp_all [runScript]
  · rintro ⟨h1, h2, h3, h4, hinit⟩
    cases hbi : env.bme280_init with
    | some e =>
        have hrun : runScript env db0 =
            { exit := .uncaught e, db := db0, logs := [],
              trace := startupTrace } := by
          simp [runScript, h1, h2, h3, h4, hbi]
        rw [hrun]
        exact ⟨⟨e, rfl⟩, by simp [Exit.code], by simp [startupTrace],
          by simp [startupTrace]⟩
    | none =>
      cases hli : env.ltr559_init with
      | some e =>
          have hrun : runScript env db0 =
              { exit := .uncaught e, db := db0, logs := [],
                trace := startupTrace } := by
            simp [runScript, h1, h2, h3, h4, hbi, hli]
          rw [hrun]
          exact ⟨⟨e, rfl⟩, by simp [Exit.code], by simp [startupTrace],
            by simp [startupTrace]⟩
      | none =>
        cases hpi : env.pms5003_init with
        | some e =>
            have hrun : runScript env db0 =
                { exit := .uncaught e, db := db0, logs := [],
                  trace := startupTrace } := by
              simp [runScript, h1, h2, h3, h4, hbi, hli, hpi]
            rw [hrun]
            exact ⟨⟨e, rfl⟩, by simp [Exit.code], by simp [startupTrace],
              by simp [startupTrace]⟩
        | none => exact absurd ⟨hbi, hli, hpi⟩ hinit
  · rintro ⟨h1, h2, h3, h4, h5, h6, h7, h8, h9, ⟨sd, warns⟩, h10⟩
    have hrun : runScript env db0 =
        { exit := .status 0,
          db := (log_data env.insert_fail env.timestamp sd
            (DB.mk (some (db0.measurements.getD [])))).1,
          logs := [.info (startingMsg env.db_file),
              .info (readingMsg env.timestamp)]
            ++ warns ++ [.debug "Sensor data read"]
            ++ (log_data env.insert_fail env.timestamp sd
                 (DB.mk (some (db0.measurements.getD [])))).2
            ++ [.info successMsg],
          trace := startupTrace ++ [.argparse]
            ++ [.schemaEnsure, .sensorRead, .dbInsert] } := by
      simp [runScript, mainBody, h1, h2, h3, h4, h5, h6, h7, h8, h9, h10,
        create_database_table]
    rw [hrun]
    refine ⟨rfl, List.getLast?_concat _, ?_⟩
    show Event.dbInsert ∈ startupTrace ++ [Event.argparse]
      ++ [Event.schemaEnsure, Event.sensorRead, Event.dbInsert]
    simp [startupTrace]

/-- C5 amended witness: the three branches exercised at concrete runs — a
failed import (exit status 0 with a logged error), a raising `BME280()`
constructor (uncaught, non-zero), and a healthy run (exit 0 after the final
confirmation line). -/
theorem C5_amended_exit_behavior_witness :
    ((runScript envC5 emptyDB).exit = Exit.status 0 ∧
     (∃ m, LogEvent.error m ∈ (runScript envC5 emptyDB).logs) ∧
     Event.sensorRead ∉ (runScript envC5 emptyDB).trace ∧
     Event.dbInsert ∉ (runScript envC5 emptyDB).trace) ∧
    ((∃ e, (runScript envC5init emptyDB).exit = Exit.uncaught e) ∧
     Exit.code (runScript envC5init emptyDB).exit ≠ 0 ∧
     Event.sensorRead ∉ (runScript envC5init emptyDB).trace ∧
     Event.dbInsert ∉ (runScript envC5init emptyDB).trace) ∧
    ((runScript envC3 emptyDB).exit = Exit.status 0 ∧
     (runScript envC3 emptyDB).logs.getLast? = some (LogEvent.info successMsg) ∧
     Event.dbInsert ∈ (runScript envC3 emptyDB).trace) :=
  ⟨(C5_amended_exit_behavior envC5 emptyDB).1 (Or.inl rfl),
   (C5_amended_exit_behavior envC5init emptyDB).2.1
     ⟨rfl, rfl, rfl, rfl, by decide⟩,
   (C5_amended_exit_behavior envC3 emptyDB).2.2
     ⟨rfl, rfl, rfl, rfl, rfl, rfl, rfl, by decide, rfl,
      ⟨(sdC3, [LogEvent.warning pmsWarnMsg]), rfl⟩⟩⟩

/-- C6 counterexample: an invocation with an invalid log level is rejected
by argument parsing (exit status 2), but only after the module-level sensor
handle initialization already took place: `sensorHandleInit` precedes
`argparse` in the executed trace. -/
theorem C6_counterexample :
    (runScript envC6 emptyDB).exit = Exit.status 2 ∧
    Event.sensorHandleInit ∈ (runScript envC6 emptyDB).trace ∧
    (runScript envC6 emptyDB).trace =
      [Event.importGas, Event.importBME280, Event.importLTR559,
       Event.importPMS5003, Event.sensorHandleInit, Event.argparse] :=
  ⟨by decide, by decide, by decide⟩

/-- C6 amended: an invalid log level value is rejected by argument parsing
(exit status 2) before any sensor read or database operation — but after the
module-level sensor handle initialization, which has already occurred by the
time the arguments are parsed. -/
theorem C6_amended_reject_after_handle_init (env : Env) (db0 : DB)
    (h1 : env.import_gas_ok = true) (h2 : env.import_bme280_ok = true)
    (h3 : env.import_ltr559_ok = true) (h4 : env.import_pms5003_ok = true)
    (h5 : env.bme280_init = none) (h6 : env.ltr559_init = none)
    (h7 : env.pms5003_init = none) (h8 : env.log_level ∉ LOG_LEVELS) :
    (runScript env db0).exit = Exit.status 2 ∧
    (runScript env db0).trace =
      [Event.importGas, Event.importBME280, Event.importLTR559,
       Event.importPMS5003, Event.sensorHandleInit, Event.argparse] ∧
    Event.sensorRead ∉ (runScript env db0).trace ∧
    Event.schemaEnsure ∉ (runScript env db0).trace ∧
    Event.dbInsert ∉ (runScript env db0).trace ∧
    (runScript env db0).db = db0 := by
  have hrun : runScript env db0 =
      { exit := .status 2, db := db0, logs := [],
        trace := startupTrace ++ [.argparse] } := by
    simp [runScript, h1, h2, h3, h4, h5, h6, h7, h8]
  rw [hrun]
  simp [startupTrace]

/-- C6 amended witness: the concrete invalid-level invocation. -/
theorem C6_amended_reject_after_handle_init_witness :
    (runScript envC6 emptyDB).exit = Exit.status 2 ∧
    (runScript envC6 emptyDB).trace =
      [Event.importGas, Event.importBME280, Event.importLTR559,
       Event.importPMS5003, Event.sensorHandleInit, Event.argparse] ∧
    Event.sensorRead ∉ (runScript envC6 emptyDB).trace ∧
    Event.schemaEnsure ∉ (runScript envC6 emptyDB).trace ∧
    Event.dbInsert ∉ (runScript envC6 emptyDB).trace ∧
    (runScript envC6 emptyDB).db = emptyDB :=
  C6_amended_reject_after_handle_init envC6 emptyDB
    rfl rfl rfl rfl rfl rfl rfl (by decide)

/-- C8: The sensor read returns a record exactly when the climate, light and
gas reads all succeed and the particulate block either succeeds or raises
precisely the read timeout: every climate/light/gas exception, and every
non-timeout particulate exception, propagates as fatal, and only the
particulate read timeout is recovered. -/
theorem C8_only_pm_timeout_recovered (bme280 : ClimateEnv) (ltr559 : LightEnv)
    (pms : PMEnv) (gasLib : GasEnv) :
    (∃ res, get_sensor_data bme280 ltr559 pms gasLib = Except.ok res) ↔
    ((∃ q, bme280.get_temperature = Except.ok q) ∧
     (∃ q, bme280.get_pressure = Except.ok q) ∧
     (∃ q, bme280.get_humidity = Except.ok q) ∧
     (∃ q, ltr559.get_lux = Except.ok q) ∧
     (∃ q, ltr559.get_proximity = Except.ok q) ∧
     (∃ g, gasLib.read_all = Except.ok g) ∧
     ((∃ f, pmTry pms = Except.ok f) ∨
      (∃ s, pmTry pms = Except.error (s, PyError.readTimeout)))) := by
  constructor
  · rintro ⟨⟨sd, warns⟩, h⟩
    obtain ⟨q0, q1, q2, q3, q4, q6, pm, hpm, -⟩ :=
      get_sensor_data_ok_inv _ _ _ _ _ _ h
    exact ⟨q0, q1, q2, q3, q4, q6, (pmHandled_ok_iff pms).1 ⟨(pm, warns), hpm⟩⟩
  · rintro ⟨⟨t, h0⟩, ⟨p, h1⟩, ⟨hu, h2⟩, ⟨lx, h3⟩, ⟨px, h4⟩, ⟨g, h6⟩, hpm⟩
    obtain ⟨⟨pm, w1⟩, h5⟩ := (pmHandled_ok_iff pms).2 hpm
    simp [get_sensor_data, h0, h1, h2, h3, h4, h5, h6]

/-- C9: A persistence failure during schema-ensure propagates uncaught —
`create_database_table` has no handler — so the run terminates with the
exception before any sensor read or insert is attempted, leaving the
database untouched. -/
theorem C9_schema_failure_fatal (env : Env) (db0 : DB) (e : PyError)
    (h1 : env.import_gas_ok = true) (h2 : env.import_bme280_ok = true)
    (h3 : env.import_ltr559_ok = true) (h4 : env.import_pms5003_ok = true)
    (h5 : env.bme280_init = none) (h6 : env.ltr559_init = none)
    (h7 : env.pms5003_init = none) (h8 : env.log_level ∈ LOG_LEVELS)
    (h9 : env.schema_fail = some e) :
    (runScript env db0).exit = Exit.uncaught e ∧
    Event.schemaEnsure ∈ (runScript env db0).trace ∧
    Event.sensorRead ∉ (runScript env db0).trace ∧
    Event.dbInsert ∉ (runScript env db0).trace ∧
    (runScript env db0).db = db0 := by
  have hrun : runScript env db0 =
      { exit := .uncaught e, db := db0,
        logs := [.info (startingMsg env.db_file)],
        trace := startupTrace ++ [.argparse] ++ [.schemaEnsure] } := by
    simp [runScript, mainBody, h1, h2, h3, h4, h5, h6, h7, h8, h9,
      create_database_table]
  rw [hrun]
  simp [startupTrace]

/-- C9 witness: the concrete run whose schema-ensure hits a disk failure. -/
theorem C9_schema_failure_fatal_witness :
    (runScript envC9 emptyDB).exit = Exit.uncaught (PyError.err "disk failure") ∧
    Event.schemaEnsure ∈ (runScript envC9 emptyDB).trace ∧
    Event.sensorRead ∉ (runScript envC9 emptyDB).trace ∧
    Event.dbInsert ∉ (runScript envC9 emptyDB).trace ∧
    (runScript envC9 emptyDB).db = emptyDB :=
  C9_schema_failure_fatal envC9 emptyDB (PyError.err "disk failure")
    rfl rfl rfl rfl rfl rfl rfl (by decide) rfl

end EnviroPlus
